import Mathlib

/-
Shallow embedding of the Pastir/zlog Go package (src/zlog/zlog.go and
src/zlog/options.go).

The package builds a pair of zap loggers (access/error) from functional
options.  We embed:
  - zapcore severity levels as integers (Debug = -1, Info = 0, Warn = 1,
    Error = 2), matching zapcore.Level;
  - zapcore.EncoderConfig restricted to the fields the package touches,
    with the encoder function fields modelled as enumeration tags;
  - zapcore.WriteSyncer values as a syntax tree `WS` (discard, lumberjack
    file writer, stdout, stderr, multi-write-syncer), with write/sync
    semantics parameterised by a `WSSem` record giving the behaviour of
    the external collaborators (lumberjack, OS streams) over an abstract
    state type; io.Discard and zapcore.NewMultiWriteSyncer have fixed
    semantics taken from their Go sources (discard: write returns len(p)
    and nil error, sync is a no-op; multi: both branches are attempted in
    sequence and errors are combined with multierr.Append);
  - errors as an inductive `Err` (leaf message / multierr combination),
    plus the package's own `syncError` type with its `Error` and `Unwrap`
    methods;
  - the option type, every option constructor, and `New`.

Go nil pointers / nil interfaces are modelled with `Option`; a nil
WriteSyncer inside a core is treated as an absent destination whose sync
trivially succeeds (New never constructs that case: the file writer is
always non-nil).
-/

namespace zlog

/-- Severity level, as in zapcore.Level (an int8): Debug = -1, Info = 0,
Warn = 1, Error = 2. -/
abbrev Level := Int

def DebugLevel : Level := -1
def InfoLevel : Level := 0
def WarnLevel : Level := 1
def ErrorLevel : Level := 2

/-- Tag for zapcore level-encoder functions. -/
inductive LevelEncoder where
  | capital
  | lowercase
  | otherLevelEnc (tag : Nat)
  deriving DecidableEq

/-- Tag for zapcore time-encoder functions. -/
inductive TimeEncoder where
  | iso8601
  | epoch
  | otherTimeEnc (tag : Nat)
  deriving DecidableEq

/-- Tag for zapcore duration-encoder functions. -/
inductive DurationEncoder where
  | seconds
  | nanos
  | otherDurEnc (tag : Nat)
  deriving DecidableEq

/-- Tag for zapcore caller-encoder functions. -/
inductive CallerEncoder where
  | short
  | full
  | otherCallerEnc (tag : Nat)
  deriving DecidableEq

/-- zapcore.EncoderConfig, restricted to the fields this package sets
(the remaining string keys keep their Go zero value ""). -/
structure EncoderConfig where
  TimeKey : String
  LevelKey : String
  NameKey : String
  CallerKey : String
  MessageKey : String
  StacktraceKey : String
  LineEnding : String
  EncodeLevel : LevelEncoder
  EncodeTime : TimeEncoder
  EncodeDuration : DurationEncoder
  EncodeCaller : CallerEncoder
  deriving DecidableEq

/-- zapcore.DefaultLineEnding. -/
def DefaultLineEnding : String := "\n"

/-- defaultEncoder from zlog.go: the JSON encoder configuration used
unless WithEncoder overrides it. -/
def defaultEncoder : EncoderConfig :=
  { TimeKey := "ts"
    LevelKey := "level"
    NameKey := ""
    CallerKey := ""
    MessageKey := "msg"
    StacktraceKey := ""
    LineEnding := DefaultLineEnding
    EncodeLevel := LevelEncoder.capital
    EncodeTime := TimeEncoder.iso8601
    EncodeDuration := DurationEncoder.seconds
    EncodeCaller := CallerEncoder.short }

/-- rotateCfg from zlog.go: a rotation policy.  Go ints are modelled as
unbounded integers (the values never overflow in any claim). -/
structure rotateCfg where
  Path : String
  MaxSizeMB : Int
  MaxBackups : Int
  MaxAgeDays : Int
  Compress : Bool
  deriving DecidableEq

/-- zap.Option values are opaque to this package; we model them as an
inductive with the two options New itself constructs plus arbitrary
caller-supplied options distinguished by a tag. -/
inductive ZapOption where
  | addCaller
  | addStacktrace (lvl : Level)
  | custom (tag : Nat)
  deriving DecidableEq

/-- buildCfg from zlog.go: the transient accumulator the options mutate. -/
structure buildCfg where
  access : rotateCfg
  error : rotateCfg
  consoleStdout : Bool
  consoleStderr : Bool
  enc : EncoderConfig
  zapOpts : List ZapOption
  initialAccessLevel : Level
  initialErrorLevel : Level
  deriving DecidableEq

/-- Option from options.go (`type Option func(*buildCfg)`): mutation of
the accumulator, embedded as a function on buildCfg.  Named Opt because
Lean already uses Option for nilable values. -/
abbrev Opt := buildCfg → buildCfg

/-- Errors: a leaf error with a message, or the combination of two
non-nil errors by multierr.Append (as used by zapcore's
multiWriteSyncer).  A nil Go error is `Option.none` at use sites. -/
inductive Err where
  | msg (s : String)
  | multi (a b : Err)
  deriving DecidableEq

/-- Error message of an Err: multierr renders combined errors joined by
"; ". -/
def Err.message : Err → String
  | .msg s => s
  | .multi a b => a.message ++ "; " ++ b.message

/-- multierr.Append on two possibly-nil errors: nil is the identity, two
non-nil errors combine. -/
def multierrAppend : Option Err → Option Err → Option Err
  | none, right => right
  | some left, none => some left
  | some left, some right => some (Err.multi left right)

/-- syncError from zlog.go: the aggregated flush failure, holding the
slice of underlying errors. -/
structure syncError where
  errs : List Err
  deriving DecidableEq

/-- syncError.Error(): with exactly one underlying error its message is
returned verbatim, otherwise the generic summary. -/
def syncError.Error (e : syncError) : String :=
  match e.errs with
  | [e0] => e0.message
  | _ => "multiple sync errors occurred"

/-- syncError.Unwrap(): exposes the underlying errors for inspection. -/
def syncError.Unwrap (e : syncError) : List Err := e.errs

/-- zapcore.WriteSyncer values reachable in this package:
io.Discard wrapped by AddSync, a lumberjack.Logger wrapped by AddSync,
os.Stdout / os.Stderr wrapped by AddSync, and NewMultiWriteSyncer. -/
inductive WS where
  | discard
  | lumberjack (filename : String) (maxSize maxBackups maxAge : Int)
      (compress : Bool)
  | stdout
  | stderr
  | multi (a b : WS)
  deriving DecidableEq

/-- Behaviour of the external collaborators (lumberjack writer, OS
streams) over an abstract world state σ: each write/sync transforms the
state and possibly fails.  Claims quantify over all such behaviours. -/
structure WSSem (σ : Type) where
  lumberjackWrite : String → Int → Int → Int → Bool → List Nat → σ →
    σ × Option Err
  lumberjackSync : String → Int → Int → Int → Bool → σ → σ × Option Err
  stdoutWrite : List Nat → σ → σ × Option Err
  stdoutSync : σ → σ × Option Err
  stderrWrite : List Nat → σ → σ × Option Err
  stderrSync : σ → σ × Option Err

variable {σ : Type}

/-- Write a byte slice through a WriteSyncer.  io.Discard succeeds and
touches nothing; multiWriteSyncer.Write writes to each branch in turn
(no short-circuit) and combines errors with multierr.Append. -/
def wsWrite (sem : WSSem σ) : WS → List Nat → σ → σ × Option Err
  | .discard, _, s => (s, none)
  | .lumberjack p ms mb ma c, b, s => sem.lumberjackWrite p ms mb ma c b s
  | .stdout, b, s => sem.stdoutWrite b s
  | .stderr, b, s => sem.stderrWrite b s
  | .multi w1 w2, b, s =>
    let r1 := wsWrite sem w1 b s
    let r2 := wsWrite sem w2 b r1.1
    (r2.1, multierrAppend r1.2 r2.2)

/-- Flush a WriteSyncer.  AddSync gives io.Discard a no-op Sync;
multiWriteSyncer.Sync attempts every branch and combines failures with
multierr.Append. -/
def wsSync (sem : WSSem σ) : WS → σ → σ × Option Err
  | .discard, s => (s, none)
  | .lumberjack p ms mb ma c, s => sem.lumberjackSync p ms mb ma c s
  | .stdout, s => sem.stdoutSync s
  | .stderr, s => sem.stderrSync s
  | .multi w1 w2, s =>
    let r1 := wsSync sem w1 s
    let r2 := wsSync sem w2 r1.1
    (r2.1, multierrAppend r1.2 r2.2)

/-- A sequence of writes through one WriteSyncer, threading the state
and aggregating any errors (harness for the "arbitrary number of
writes" wording of the spec). -/
def wsWriteMany (sem : WSSem σ) (w : WS) : List (List Nat) → σ →
    σ × Option Err
  | [], s => (s, none)
  | b :: bs, s =>
    let r1 := wsWrite sem w b s
    let r2 := wsWriteMany sem w bs r1.1
    (r2.1, multierrAppend r1.2 r2.2)

/-- zapcore.Core as built by makeCore: a JSON encoder configuration, an
output WriteSyncer (nilable in the Go type, never nil in this package),
and a level gate. -/
structure Core where
  enc : EncoderConfig
  ws : Option WS
  level : Level
  deriving DecidableEq

/-- makeCore from zlog.go. -/
def makeCore (encCfg : EncoderConfig) (ws : Option WS) (lvl : Level) :
    Core :=
  { enc := encCfg, ws := ws, level := lvl }

/-- zap.Logger as produced by zap.New(core, opts...): the core plus the
applied zap options. -/
structure Logger where
  core : Core
  opts : List ZapOption
  deriving DecidableEq

/-- Pair from zlog.go.  The Access and Error fields are Go pointers,
hence nilable. -/
structure Pair where
  Access : Option Logger
  Error : Option Logger
  AccessLevel : Level
  ErrorLevel : Level
  deriving DecidableEq

/-- Logger.Sync(): flushes the core's WriteSyncer.  An absent (nil)
WriteSyncer has nothing to flush. -/
def loggerSync (sem : WSSem σ) (l : Logger) (s : σ) : σ × Option Err :=
  match l.core.ws with
  | none => (s, none)
  | some w => wsSync sem w s

/-- Pair.Sync from zlog.go: flush Access if non-nil, then Error if
non-nil, collecting any errors; return a syncError when at least one
flush failed, nil otherwise. -/
def Pair.Sync (sem : WSSem σ) (p : Pair) (s : σ) : σ × Option syncError :=
  let ra :=
    match p.Access with
    | none => (s, ([] : List Err))
    | some l =>
      match loggerSync sem l s with
      | (s1, none) => (s1, [])
      | (s1, some e) => (s1, [e])
  let rb :=
    match p.Error with
    | none => (ra.1, ([] : List Err))
    | some l =>
      match loggerSync sem l ra.1 with
      | (s1, none) => (s1, [])
      | (s1, some e) => (s1, [e])
  let errs := ra.2 ++ rb.2
  if errs.length > 0 then (rb.1, some ⟨errs⟩) else (rb.1, none)

/-- newRotateWriter from zlog.go: empty path discards, otherwise the
policy fields are handed to lumberjack one for one. -/
def newRotateWriter (c : rotateCfg) : WS :=
  if c.Path = "" then
    WS.discard
  else
    WS.lumberjack c.Path c.MaxSizeMB c.MaxBackups c.MaxAgeDays c.Compress

/-- tee from zlog.go: nil on one side degrades to the other, two non-nil
WriteSyncers combine into a multiWriteSyncer. -/
def tee (ws1 ws2 : Option WS) : Option WS :=
  match ws1, ws2 with
  | none, _ => ws2
  | some w1, none => some w1
  | some w1, some w2 => some (WS.multi w1 w2)

/-- WithAccessFile from options.go: negative numeric fields are clamped
to zero, then the access rotation policy is replaced wholesale. -/
def WithAccessFile (path : String) (maxSizeMB maxBackups maxAgeDays : Int)
    (compress : Bool) : Opt :=
  fun c =>
    let maxSizeMB := if maxSizeMB < 0 then 0 else maxSizeMB
    let maxBackups := if maxBackups < 0 then 0 else maxBackups
    let maxAgeDays := if maxAgeDays < 0 then 0 else maxAgeDays
    { c with
        access :=
          { Path := path
            MaxSizeMB := maxSizeMB
            MaxBackups := maxBackups
            MaxAgeDays := maxAgeDays
            Compress := compress } }

/-- WithErrorFile from options.go: same clamping, targets the error
rotation policy. -/
def WithErrorFile (path : String) (maxSizeMB maxBackups maxAgeDays : Int)
    (compress : Bool) : Opt :=
  fun c =>
    let maxSizeMB := if maxSizeMB < 0 then 0 else maxSizeMB
    let maxBackups := if maxBackups < 0 then 0 else maxBackups
    let maxAgeDays := if maxAgeDays < 0 then 0 else maxAgeDays
    { c with
        error :=
          { Path := path
            MaxSizeMB := maxSizeMB
            MaxBackups := maxBackups
            MaxAgeDays := maxAgeDays
            Compress := compress } }

/-- WithConsoleForAccess from options.go. -/
def WithConsoleForAccess (enable : Bool) : Opt :=
  fun c => { c with consoleStdout := enable }

/-- WithConsoleForError from options.go. -/
def WithConsoleForError (enable : Bool) : Opt :=
  fun c => { c with consoleStderr := enable }

/-- WithInitialLevels from options.go: sets both initial thresholds. -/
def WithInitialLevels (access err : Level) : Opt :=
  fun c => { c with initialAccessLevel := access, initialErrorLevel := err }

/-- WithEncoder from options.go: replaces the encoder configuration
wholesale. -/
def WithEncoder (enc : EncoderConfig) : Opt :=
  fun c => { c with enc := enc }

/-- WithZapOptions from options.go: appends to the accumulated caller
options (it does not replace them). -/
def WithZapOptions (opts : List ZapOption) : Opt :=
  fun c => { c with zapOpts := c.zapOpts ++ opts }

/-- The buildCfg literal New starts from before applying any option. -/
def defaultBuildCfg : buildCfg :=
  { access := {
      Path := "", MaxSizeMB := 0, MaxBackups := 0, MaxAgeDays := 0,
      Compress := false }
    error := {
      Path := "", MaxSizeMB := 0, MaxBackups := 0, MaxAgeDays := 0,
      Compress := false }
    consoleStdout := false
    consoleStderr := false
    enc := defaultEncoder
    initialAccessLevel := InfoLevel
    initialErrorLevel := ErrorLevel
    zapOpts := [] }

/-- The option-application loop of New (`for _, o := range opts`). -/
def applyOpts (opts : List Opt) (c : buildCfg) : buildCfg :=
  opts.foldl (fun acc o => o acc) c

/-- New from zlog.go: fold the options over the defaults, derive the
writers, tee in the consoles, build the two cores and loggers (the error
logger always gets AddCaller and AddStacktrace(ErrorLevel) prepended to
the caller options), and return the Pair with a nil error. -/
def New (opts : List Opt) : Pair × Option Err :=
  let cfg := applyOpts opts defaultBuildCfg
  let accessLevel := cfg.initialAccessLevel
  let errorLevel := cfg.initialErrorLevel
  let accessFile := newRotateWriter cfg.access
  let errorFile := newRotateWriter cfg.error
  let accessConsole : Option WS :=
    if cfg.consoleStdout then some WS.stdout else none
  let errorConsole : Option WS :=
    if cfg.consoleStderr then some WS.stderr else none
  let accessCore := makeCore cfg.enc (tee (some accessFile) accessConsole)
    accessLevel
  let errorCore := makeCore cfg.enc (tee (some errorFile) errorConsole)
    errorLevel
  let errOpts := [ZapOption.addCaller, ZapOption.addStacktrace ErrorLevel]
    ++ cfg.zapOpts
  let access := Logger.mk accessCore cfg.zapOpts
  let errorL := Logger.mk errorCore errOpts
  ({ Access := some access
     Error := some errorL
     AccessLevel := accessLevel
     ErrorLevel := errorLevel }, none)

/-- Trivial collaborator behaviour over the unit state: every external
write/sync succeeds and changes nothing. -/
def unitSem : WSSem Unit where
  lumberjackWrite := fun _ _ _ _ _ _ s => (s, none)
  lumberjackSync := fun _ _ _ _ _ s => (s, none)
  stdoutWrite := fun _ s => (s, none)
  stdoutSync := fun s => (s, none)
  stderrWrite := fun _ s => (s, none)
  stderrSync := fun s => (s, none)

/-- Collaborator behaviour in which flushing the lumberjack file "a"
fails with message "boom" and flushing "b" fails with message "bam";
everything else succeeds. -/
def failSem : WSSem Unit where
  lumberjackWrite := fun _ _ _ _ _ _ s => (s, none)
  lumberjackSync := fun p _ _ _ _ s =>
    (s, if p = "a" then some (Err.msg "boom")
        else if p = "b" then some (Err.msg "bam") else none)
  stdoutWrite := fun _ s => (s, none)
  stdoutSync := fun s => (s, none)
  stderrWrite := fun _ s => (s, none)
  stderrSync := fun s => (s, none)

/-- A logger writing to the lumberjack file "a" (whose flush fails under
failSem). -/
def laFail : Logger :=
  ⟨⟨defaultEncoder, some (WS.lumberjack "a" 0 0 0 false), InfoLevel⟩, []⟩

/-- A logger writing to the lumberjack file "b" (whose flush fails under
failSem). -/
def leFail : Logger :=
  ⟨⟨defaultEncoder, some (WS.lumberjack "b" 0 0 0 false), ErrorLevel⟩, []⟩

/-- A Pair whose two loggers both fail to flush under failSem. -/
def pFail : Pair := ⟨some laFail, some leFail, InfoLevel, ErrorLevel⟩

/-- C7: New never fails: for every option list, the error component of
its result is nil. -/
theorem New_no_error (opts : List Opt) : (New opts).2 = none := rfl

/-- C8: New starts from the documented defaults (empty rotation
configurations for both loggers, console disabled for both, the default
encoder, access threshold Info, error threshold Error, no extra zap
options) before applying any option, and with the empty option list the
returned Pair's level gates hold exactly the two default thresholds. -/
theorem New_defaults :
    defaultBuildCfg.access = ⟨"", 0, 0, 0, false⟩ ∧
    defaultBuildCfg.error = ⟨"", 0, 0, 0, false⟩ ∧
    defaultBuildCfg.consoleStdout = false ∧
    defaultBuildCfg.consoleStderr = false ∧
    defaultBuildCfg.enc = defaultEncoder ∧
    defaultBuildCfg.initialAccessLevel = InfoLevel ∧
    defaultBuildCfg.initialErrorLevel = ErrorLevel ∧
    defaultBuildCfg.zapOpts = [] ∧
    (New []).1.AccessLevel = InfoLevel ∧
    (New []).1.ErrorLevel = ErrorLevel := by
  refine ⟨rfl, rfl, rfl, rfl, rfl, rfl, rfl, rfl, rfl, rfl⟩

/-- C2: WithAccessFile and WithErrorFile clamp each negative numeric
input to 0 and store non-negative inputs unchanged, for every prior
configuration; path and compress are stored as given; in particular
maxSizeMB = -5 is stored as 0. -/
theorem WithFile_clamps (path : String) (mS mB mA : Int) (comp : Bool)
    (c : buildCfg) :
    (WithAccessFile path mS mB mA comp c).access =
      ⟨path, if mS < 0 then 0 else mS, if mB < 0 then 0 else mB,
        if mA < 0 then 0 else mA, comp⟩ ∧
    (WithErrorFile path mS mB mA comp c).error =
      ⟨path, if mS < 0 then 0 else mS, if mB < 0 then 0 else mB,
        if mA < 0 then 0 else mA, comp⟩ ∧
    (WithAccessFile "x" (-5) 7 (-1) true defaultBuildCfg).access =
      ⟨"x", 0, 7, 0, true⟩ ∧
    (WithErrorFile "x" (-5) 7 (-1) true defaultBuildCfg).error =
      ⟨"x", 0, 7, 0, true⟩ := by
  refine ⟨rfl, rfl, by decide, by decide⟩

/-- C3 counterexample: two applications of WithZapOptions do not obey
last-write-wins.  Folding [WithZapOptions [custom 1], WithZapOptions
[custom 2]] over the defaults stores [custom 1, custom 2], which differs
from the result of applying only the later option (that stores
[custom 2]). -/
theorem WithZapOptions_not_last_write_wins :
    (applyOpts [WithZapOptions [ZapOption.custom 1],
        WithZapOptions [ZapOption.custom 2]] defaultBuildCfg).zapOpts =
      [ZapOption.custom 1, ZapOption.custom 2] ∧
    (applyOpts [WithZapOptions [ZapOption.custom 2]]
        defaultBuildCfg).zapOpts = [ZapOption.custom 2] ∧
    (applyOpts [WithZapOptions [ZapOption.custom 1],
        WithZapOptions [ZapOption.custom 2]] defaultBuildCfg).zapOpts ≠
      (applyOpts [WithZapOptions [ZapOption.custom 2]]
        defaultBuildCfg).zapOpts := by
  refine ⟨rfl, rfl, by decide⟩

/-- C3 (amended): last-write-wins holds for every field-setting option
constructor — WithAccessFile, WithErrorFile, WithConsoleForAccess,
WithConsoleForError, WithInitialLevels and WithEncoder store a value on
their field that is independent of the prior configuration, so in a fold
the later of two options touching that field determines it — but
WithZapOptions is the exception: it appends to the accumulated zap
options, so two applications concatenate rather than the later
replacing the earlier. -/
theorem option_last_write_wins (c d : buildCfg) (path : String)
    (mS mB mA : Int) (comp enable : Bool) (la le : Level)
    (ec : EncoderConfig) (os : List ZapOption) (pre : List Opt) :
    (WithAccessFile path mS mB mA comp c).access =
      (WithAccessFile path mS mB mA comp d).access ∧
    (WithErrorFile path mS mB mA comp c).error =
      (WithErrorFile path mS mB mA comp d).error ∧
    (WithConsoleForAccess enable c).consoleStdout = enable ∧
    (WithConsoleForError enable c).consoleStderr = enable ∧
    (WithInitialLevels la le c).initialAccessLevel = la ∧
    (WithInitialLevels la le c).initialErrorLevel = le ∧
    (WithEncoder ec c).enc = ec ∧
    (applyOpts (pre ++ [WithAccessFile path mS mB mA comp]) c).access =
      (WithAccessFile path mS mB mA comp c).access ∧
    (applyOpts (pre ++ [WithEncoder ec]) c).enc = ec ∧
    (WithZapOptions os c).zapOpts = c.zapOpts ++ os := by
  refine ⟨rfl, rfl, rfl, rfl, rfl, rfl, rfl, ?_, ?_, rfl⟩
  · simp [applyOpts, WithAccessFile]
  · simp [applyOpts, WithEncoder]

/-- C4: for every option list, the error logger built by New carries
AddCaller and AddStacktrace(ErrorLevel) as its first two options, with
the accumulated caller options strictly after them; with no caller
options the two mandatory options are still present. -/
theorem New_error_logger_opts (opts : List Opt) :
    ((New opts).1.Error).map Logger.opts =
      some (ZapOption.addCaller :: ZapOption.addStacktrace ErrorLevel ::
        (applyOpts opts defaultBuildCfg).zapOpts) ∧
    ((New []).1.Error).map Logger.opts =
      some [ZapOption.addCaller, ZapOption.addStacktrace ErrorLevel] :=
  ⟨rfl, rfl⟩

/-- C9: the caller options accumulated by WithZapOptions (two
applications concatenate) reach both loggers: the access logger is
built with exactly the accumulated options and nothing else, the error
logger with the same options after its two mandatory ones. -/
theorem New_zapOpts_both_loggers (opts : List Opt)
    (os1 os2 : List ZapOption) :
    ((New opts).1.Access).map Logger.opts =
      some (applyOpts opts defaultBuildCfg).zapOpts ∧
    ((New opts).1.Error).map Logger.opts =
      some ([ZapOption.addCaller, ZapOption.addStacktrace ErrorLevel] ++
        (applyOpts opts defaultBuildCfg).zapOpts) ∧
    (applyOpts [WithZapOptions os1, WithZapOptions os2]
        defaultBuildCfg).zapOpts = os1 ++ os2 := by
  refine ⟨rfl, rfl, ?_⟩
  simp [applyOpts, WithZapOptions, defaultBuildCfg]

theorem wsWriteMany_discard (sem : WSSem σ) (bs : List (List Nat))
    (s : σ) : wsWriteMany sem WS.discard bs s = (s, none) := by
  induction bs generalizing s with
  | nil => rfl
  | cons b bs ih => simp [wsWriteMany, wsWrite, multierrAppend, ih]

/-- C5: newRotateWriter on an empty path returns the discarding
destination — under every collaborator behaviour an arbitrary sequence
of writes succeeds without touching the world state, and flush succeeds
trivially — while on a non-empty path it returns a lumberjack
destination configured with exactly the policy's path, maxSizeMB,
maxBackups, maxAgeDays and compress values. -/
theorem newRotateWriter_spec (sem : WSSem σ) (c : rotateCfg) (s : σ)
    (bs : List (List Nat)) :
    (c.Path = "" → newRotateWriter c = WS.discard ∧
      wsWriteMany sem WS.discard bs s = (s, none) ∧
      wsSync sem WS.discard s = (s, none)) ∧
    (c.Path ≠ "" → newRotateWriter c =
      WS.lumberjack c.Path c.MaxSizeMB c.MaxBackups c.MaxAgeDays
        c.Compress) := by
  constructor
  · intro h
    exact ⟨by simp [newRotateWriter, h], wsWriteMany_discard sem bs s, rfl⟩
  · intro h
    simp [newRotateWriter, h]

/-- C5 witness: the spec instantiated at an empty-path policy (with two
writes) and at the policy ⟨"log.txt", 5, 3, 7, true⟩. -/
theorem newRotateWriter_spec_witness :
    newRotateWriter ⟨"", 0, 0, 0, false⟩ = WS.discard ∧
    wsWriteMany unitSem WS.discard [[1, 2], [3]] () = ((), none) ∧
    newRotateWriter ⟨"log.txt", 5, 3, 7, true⟩ =
      WS.lumberjack "log.txt" 5 3 7 true := by
  have h1 := (newRotateWriter_spec unitSem ⟨"", 0, 0, 0, false⟩ ()
    [[1, 2], [3]]).1 rfl
  have h2 := (newRotateWriter_spec unitSem ⟨"log.txt", 5, 3, 7, true⟩ ()
    []).2 (by decide)
  exact ⟨h1.1, h1.2.1, h2⟩

/-- C6: tee of two absent destinations is absent; tee with exactly one
present destination is that destination itself, unwrapped; tee of two
present destinations is the multi destination, whose write and flush
each run both branches in sequence — the second branch is attempted
regardless of the first branch's outcome — and combine the failures. -/
theorem tee_spec (sem : WSSem σ) (w1 w2 : WS) (s : σ) (b : List Nat) :
    tee none none = none ∧
    tee (some w1) none = some w1 ∧
    tee none (some w2) = some w2 ∧
    tee (some w1) (some w2) = some (WS.multi w1 w2) ∧
    wsWrite sem (WS.multi w1 w2) b s =
      ((wsWrite sem w2 b (wsWrite sem w1 b s).1).1,
        multierrAppend (wsWrite sem w1 b s).2
          (wsWrite sem w2 b (wsWrite sem w1 b s).1).2) ∧
    wsSync sem (WS.multi w1 w2) s =
      ((wsSync sem w2 (wsSync sem w1 s).1).1,
        multierrAppend (wsSync sem w1 s).2
          (wsSync sem w2 (wsSync sem w1 s).1).2) :=
  ⟨rfl, rfl, rfl, rfl, rfl, rfl⟩

/-- C1: for every Pair with both loggers present, Sync flushes the
access logger and then the error logger — the final state shows both
were attempted even when the first flush fails — and returns nil when
neither flush fails, a syncError whose message is the single underlying
failure's message verbatim when exactly one fails, and a syncError with
the generic "multiple sync errors occurred" message, its two underlying
failures recoverable by Unwrap, when both fail. -/
theorem Pair_Sync_aggregation (sem : WSSem σ) (p : Pair)
    (la le : Logger) (s s1 s2 : σ) (e1 e2 : Option Err)
    (ha : p.Access = some la) (he : p.Error = some le)
    (h1 : loggerSync sem la s = (s1, e1))
    (h2 : loggerSync sem le s1 = (s2, e2)) :
    (Pair.Sync sem p s).1 = s2 ∧
    (e1 = none → e2 = none → (Pair.Sync sem p s).2 = none) ∧
    (∀ ea, e1 = some ea → e2 = none →
      (Pair.Sync sem p s).2 = some ⟨[ea]⟩ ∧
      (syncError.mk [ea]).Error = ea.message ∧
      (syncError.mk [ea]).Unwrap = [ea]) ∧
    (∀ eb, e1 = none → e2 = some eb →
      (Pair.Sync sem p s).2 = some ⟨[eb]⟩ ∧
      (syncError.mk [eb]).Error = eb.message ∧
      (syncError.mk [eb]).Unwrap = [eb]) ∧
    (∀ ea eb, e1 = some ea → e2 = some eb →
      (Pair.Sync sem p s).2 = some ⟨[ea, eb]⟩ ∧
      (syncError.mk [ea, eb]).Error = "multiple sync errors occurred" ∧
      (syncError.mk [ea, eb]).Unwrap = [ea, eb]) := by
  rcases e1 with _ | ea0 <;> rcases e2 with _ | eb0 <;>
    simp_all [Pair.Sync, syncError.Error, syncError.Unwrap]

/-- C1 witness: under failSem both loggers of pFail fail to flush
("boom" on the access file "a", "bam" on the error file "b"); Sync
reports the generic message and Unwrap recovers both failures. -/
theorem Pair_Sync_aggregation_witness :
    (Pair.Sync failSem pFail ()).2 =
      some ⟨[Err.msg "boom", Err.msg "bam"]⟩ ∧
    (syncError.mk [Err.msg "boom", Err.msg "bam"]).Error =
      "multiple sync errors occurred" ∧
    (syncError.mk [Err.msg "boom", Err.msg "bam"]).Unwrap =
      [Err.msg "boom", Err.msg "bam"] := by
  have h := Pair_Sync_aggregation failSem pFail laFail leFail () () ()
    (some (Err.msg "boom")) (some (Err.msg "bam")) rfl rfl
    (by decide) (by decide)
  exact h.2.2.2.2 (Err.msg "boom") (Err.msg "bam") rfl rfl

/-- C10: Sync is total on every Pair, including ones with nil logger
fields: a nil Access (or nil Error) is skipped and the other logger is
still flushed, with its sole failure (if any) reported; a Pair with
both loggers nil yields no failure. -/
theorem Pair_Sync_nil_safe (sem : WSSem σ) (p : Pair) (s : σ) :
    (p.Access = none → p.Error = none → Pair.Sync sem p s = (s, none)) ∧
    (∀ le s2, p.Access = none → p.Error = some le →
      loggerSync sem le s = (s2, none) →
      Pair.Sync sem p s = (s2, none)) ∧
    (∀ le s2 e, p.Access = none → p.Error = some le →
      loggerSync sem le s = (s2, some e) →
      Pair.Sync sem p s = (s2, some ⟨[e]⟩)) ∧
    (∀ la s2, p.Error = none → p.Access = some la →
      loggerSync sem la s = (s2, none) →
      Pair.Sync sem p s = (s2, none)) ∧
    (∀ la s2 e, p.Error = none → p.Access = some la →
      loggerSync sem la s = (s2, some e) →
      Pair.Sync sem p s = (s2, some ⟨[e]⟩)) := by
  refine ⟨?_, ?_, ?_, ?_, ?_⟩ <;> intros <;> simp_all [Pair.Sync]

/-- C10 witness: Sync on the Pair with both loggers nil returns no
failure. -/
theorem Pair_Sync_nil_safe_witness :
    Pair.Sync unitSem ⟨none, none, InfoLevel, ErrorLevel⟩ () =
      ((), none) :=
  (Pair_Sync_nil_safe unitSem ⟨none, none, InfoLevel, ErrorLevel⟩ ()).1
    rfl rfl

end zlog
